import Mathlib

/-!
# PipeWire version header (`libs/system-sdk/linux/include/pipewire/version.h`)

A shallow embedding of the vendored PipeWire version header: the version
constants, the headers-version string and the `PW_CHECK_VERSION` comparison
macro, followed by the properties stated about them.

The macro is built only from the C operators `>`, `>=`, `==`, `&&` and `||`,
each of which yields the `int` value `1` or `0`.  These operators are embedded
as `Int`-valued functions, so that the macro's value is the C value.  The macro
performs no arithmetic on its arguments, only comparisons against the three
constants, so no wrap-around can occur and the arguments are taken as
mathematical integers.
-/

namespace PipeWire

/-! ## C operators used by the header -/

/-- C `a > b`: the `int` 1 when the relation holds, 0 otherwise. -/
def c_gt (a b : Int) : Int := if a > b then 1 else 0

/-- C `a >= b`. -/
def c_ge (a b : Int) : Int := if a ≥ b then 1 else 0

/-- C `a == b`. -/
def c_eq (a b : Int) : Int := if a = b then 1 else 0

/-- C `a && b`: the right operand counts only when the left one is non-zero. -/
def c_land (a b : Int) : Int := if a = 0 then 0 else if b = 0 then 0 else 1

/-- C `a || b`: the right operand counts only when the left one is zero. -/
def c_lor (a b : Int) : Int := if a ≠ 0 then 1 else if b ≠ 0 then 1 else 0

/-! ## The header -/

/-- Line 17: `#define pw_get_headers_version() ("0.3.71")`, a macro without
arguments. -/
def pw_get_headers_version (_ : Unit) : String := "0.3.71"

/-- Line 26: `#define PW_API_VERSION "0.3"`. -/
def PW_API_VERSION : String := "0.3"

/-- Line 29: `#define PW_MAJOR 0`. -/
def PW_MAJOR : Int := 0

/-- Line 32: `#define PW_MINOR 3`. -/
def PW_MINOR : Int := 3

/-- Line 35: `#define PW_MICRO 71`. -/
def PW_MICRO : Int := 71

/-- Lines 39-42:
`((PW_MAJOR > (major)) ||
  (PW_MAJOR == (major) && PW_MINOR > (minor)) ||
  (PW_MAJOR == (major) && PW_MINOR == (minor) && PW_MICRO >= (micro)))`.
Both `||` and `&&` associate to the left. -/
def PW_CHECK_VERSION (major minor micro : Int) : Int :=
  c_lor
    (c_lor (c_gt PW_MAJOR major)
      (c_land (c_eq PW_MAJOR major) (c_gt PW_MINOR minor)))
    (c_land (c_land (c_eq PW_MAJOR major) (c_eq PW_MINOR minor))
      (c_ge PW_MICRO micro))

/-! ## Vocabulary of the specification -/

/-- A version triple `(major, minor, micro)`. -/
abbrev Triple := Int × Int × Int

/-- Lexicographic `≤` on triples: compare major; on a tie compare minor; on a
tie compare micro. -/
def lexLe (a b : Triple) : Prop :=
  a.1 < b.1 ∨ (a.1 = b.1 ∧ (a.2.1 < b.2.1 ∨ (a.2.1 = b.2.1 ∧ a.2.2 ≤ b.2.2)))

instance (a b : Triple) : Decidable (lexLe a b) := by
  unfold lexLe; infer_instance

/-- Lexicographic `≥` on triples. -/
def lexGe (a b : Triple) : Prop := lexLe b a

instance (a b : Triple) : Decidable (lexGe a b) := by
  unfold lexGe; infer_instance

/-- The version triple declared by the header. -/
def headerVersion : Triple := (PW_MAJOR, PW_MINOR, PW_MICRO)

/-- The three-tier formula of the macro read as a proposition: header major
strictly greater, or majors equal and header minor strictly greater, or majors
and minors equal and header micro greater-or-equal. -/
def threeTier (major minor micro : Int) : Prop :=
  PW_MAJOR > major ∨
  (PW_MAJOR = major ∧ PW_MINOR > minor) ∨
  (PW_MAJOR = major ∧ PW_MINOR = minor ∧ PW_MICRO ≥ micro)

/-- Decimal rendering of an integer, as `%d` prints it. -/
def decimal (n : Int) : String := Int.repr n

/-- The dotted form `major.minor.micro` of a version triple. -/
def dotted3 (major minor micro : Int) : String :=
  decimal major ++ "." ++ decimal minor ++ "." ++ decimal micro

/-- The dotted form `major.minor`. -/
def dotted2 (major minor : Int) : String :=
  decimal major ++ "." ++ decimal minor

/-- The bytes of a string (its UTF-8 encoding), as a C string holds them. -/
def strBytes (s : String) : List UInt8 := s.data.flatMap String.utf8EncodeChar

/-- Byte-wise ordering of two byte strings: the first differing byte decides,
and a proper initial segment sorts first. -/
def bytesLt : List UInt8 → List UInt8 → Bool
  | [], [] => false
  | [], _ :: _ => true
  | _ :: _, [] => false
  | x :: xs, y :: ys => if x < y then true else if y < x then false else bytesLt xs ys

/-- The numeric-sum test the comparison is contrasted with:
`M + N + P <= PW_MAJOR + PW_MINOR + PW_MICRO`. -/
def sumTest (major minor micro : Int) : Bool :=
  decide (major + minor + micro ≤ PW_MAJOR + PW_MINOR + PW_MICRO)

/-- The string test the comparison is contrasted with: the dotted form of the
required triple does not sort after the headers-version string, byte-wise. -/
def stringTest (major minor micro : Int) : Bool :=
  !bytesLt (strBytes (pw_get_headers_version ())) (strBytes (dotted3 major minor micro))

/-- Modelled from the spec: the PipeWire library linked at run time, whose code
is not part of the header (the header only declares its accessor).  The spec
gives it one immutable version string, owned by the library. -/
structure Library where
  /-- The version string the library owns. -/
  version : String
deriving DecidableEq

/-- Modelled from the spec: `const char* pw_get_library_version(void)`, declared
at line 21 and implemented by the library.  Per the spec it takes no input,
never fails and returns the immutable string owned by the library; a call is a
step on the library state that yields the string and leaves the library as it
was. -/
def pw_get_library_version (lib : Library) : String × Library := (lib.version, lib)

/-- The strings returned by `n` successive calls of `pw_get_library_version` in
one run, with the library state after the last call. -/
def repeatedCalls : Nat → Library → List String × Library
  | 0, lib => ([], lib)
  | n + 1, lib =>
    let r := pw_get_library_version lib
    let rest := repeatedCalls n r.2
    (r.1 :: rest.1, rest.2)

/-! ## Helper lemmas -/

lemma c_gt_ne_zero (a b : Int) : c_gt a b ≠ 0 ↔ a > b := by
  unfold c_gt; split_ifs with h <;> simp [h]

lemma c_ge_ne_zero (a b : Int) : c_ge a b ≠ 0 ↔ a ≥ b := by
  unfold c_ge; split_ifs with h <;> simp [h]

lemma c_eq_ne_zero (a b : Int) : c_eq a b ≠ 0 ↔ a = b := by
  unfold c_eq; split_ifs with h <;> simp [h]

lemma c_land_ne_zero (a b : Int) : c_land a b ≠ 0 ↔ a ≠ 0 ∧ b ≠ 0 := by
  unfold c_land; split_ifs <;> simp_all

lemma c_lor_ne_zero (a b : Int) : c_lor a b ≠ 0 ↔ a ≠ 0 ∨ b ≠ 0 := by
  unfold c_lor; split_ifs with h1 h2 <;> simp_all

lemma c_lor_one_or_zero (a b : Int) : c_lor a b = 1 ∨ c_lor a b = 0 := by
  unfold c_lor; split_ifs <;> simp

/-- The macro yields either 1 or 0. -/
lemma check_one_or_zero (major minor micro : Int) :
    PW_CHECK_VERSION major minor micro = 1 ∨ PW_CHECK_VERSION major minor micro = 0 :=
  c_lor_one_or_zero _ _

/-- The macro is non-zero (true in C) exactly when its three-tier formula holds. -/
lemma check_ne_zero_iff (major minor micro : Int) :
    PW_CHECK_VERSION major minor micro ≠ 0 ↔ threeTier major minor micro := by
  unfold PW_CHECK_VERSION threeTier
  rw [c_lor_ne_zero, c_lor_ne_zero, c_land_ne_zero, c_land_ne_zero, c_land_ne_zero,
    c_gt_ne_zero, c_gt_ne_zero, c_ge_ne_zero, c_eq_ne_zero, c_eq_ne_zero]
  tauto

/-- The macro yields 0 exactly when its three-tier formula fails. -/
lemma check_eq_zero_iff (major minor micro : Int) :
    PW_CHECK_VERSION major minor micro = 0 ↔ ¬ threeTier major minor micro := by
  rw [← check_ne_zero_iff, not_not]

/-- The macro yields 1 exactly when its three-tier formula holds. -/
lemma check_eq_one_iff (major minor micro : Int) :
    PW_CHECK_VERSION major minor micro = 1 ↔ threeTier major minor micro := by
  rw [← check_ne_zero_iff]
  rcases check_one_or_zero major minor micro with h | h <;> simp [h]

/-- The three-tier formula is lexicographic `≥` of the header triple. -/
lemma threeTier_iff_lexGe (major minor micro : Int) :
    threeTier major minor micro ↔ lexGe headerVersion (major, minor, micro) := by
  unfold threeTier lexGe lexLe headerVersion
  constructor
  · rintro (h | ⟨h1, h2⟩ | ⟨h1, h2, h3⟩)
    · exact Or.inl h
    · exact Or.inr ⟨h1.symm, Or.inl h2⟩
    · exact Or.inr ⟨h1.symm, Or.inr ⟨h2.symm, h3⟩⟩
  · rintro (h | ⟨h1, h2 | ⟨h2, h3⟩⟩)
    · exact Or.inl h
    · exact Or.inr (Or.inl ⟨h1.symm, h2⟩)
    · exact Or.inr (Or.inr ⟨h1.symm, h2.symm, h3⟩)

/-- Lexicographic `≤` is transitive. -/
lemma lexLe_trans {a b c : Triple} (hab : lexLe a b) (hbc : lexLe b c) : lexLe a c := by
  unfold lexLe at *
  omega

/-- Lexicographic `≤` is reflexive. -/
lemma lexLe_refl (a : Triple) : lexLe a a := by
  unfold lexLe
  omega

/-- The order `lexLe` is the lexicographic order of the library on nested
pairs. -/
lemma lexLe_iff_toLex (a b : Triple) :
    lexLe a b ↔ toLex (a.1, toLex (a.2.1, a.2.2)) ≤ toLex (b.1, toLex (b.2.1, b.2.2)) := by
  simp only [Prod.Lex.le_iff, ofLex_toLex]
  rfl

/-- The macro yields 1 exactly on the triples lexicographically at most the
header triple. -/
lemma check_eq_one_iff_lexLe (major minor micro : Int) :
    PW_CHECK_VERSION major minor micro = 1 ↔ lexLe (major, minor, micro) headerVersion := by
  rw [check_eq_one_iff, threeTier_iff_lexGe, lexGe]

/-- The macro yields 0 exactly on the triples not lexicographically at most
the header triple. -/
lemma check_eq_zero_iff_not_lexLe (major minor micro : Int) :
    PW_CHECK_VERSION major minor micro = 0 ↔ ¬ lexLe (major, minor, micro) headerVersion := by
  rw [check_eq_zero_iff, threeTier_iff_lexGe, lexGe]

/-- Every call in a run returns the library's string and leaves the library
unchanged. -/
lemma repeatedCalls_spec (n : Nat) (lib : Library) :
    repeatedCalls n lib = (List.replicate n lib.version, lib) := by
  induction n with
  | zero => rfl
  | succ k ih => simp [repeatedCalls, pw_get_library_version, ih, List.replicate_succ]

/-! ## The claims -/

/-- C1: for all non-negative integers M, N, P, `PW_CHECK_VERSION(M, N, P)` is
true (1) if and only if (M, N, P) is lexicographically at most
(PW_MAJOR, PW_MINOR, PW_MICRO) = (0, 3, 71), and false (0) otherwise; and the
three-tier formula of the macro coincides with lexicographic `≥` of the header
triple over the required triple. -/
theorem PW_CHECK_VERSION_iff_lex (M N P : Nat) :
    ((PW_MAJOR, PW_MINOR, PW_MICRO) : Triple) = (0, 3, 71) ∧
    (PW_CHECK_VERSION M N P = 1 ↔ lexLe ((M : Int), (N : Int), (P : Int)) (0, 3, 71)) ∧
    (PW_CHECK_VERSION M N P = 0 ↔ ¬ lexLe ((M : Int), (N : Int), (P : Int)) (0, 3, 71)) ∧
    (PW_CHECK_VERSION M N P = 1 ↔ threeTier M N P) ∧
    (threeTier M N P ↔
      lexGe (PW_MAJOR, PW_MINOR, PW_MICRO) ((M : Int), (N : Int), (P : Int))) :=
  ⟨rfl, check_eq_one_iff_lexLe M N P, check_eq_zero_iff_not_lexLe M N P,
    check_eq_one_iff M N P, threeTier_iff_lexGe M N P⟩

/-- C2: against the header version 0.3.71 the seven listed cases hold
((0,3,71), (0,3,70), (0,2,0), (0,0,0) accepted; (0,3,72), (0,4,0), (1,0,0)
rejected), and the check accepts the header's own version. -/
theorem PW_CHECK_VERSION_listed_cases :
    PW_CHECK_VERSION 0 3 71 = 1 ∧
    PW_CHECK_VERSION 0 3 70 = 1 ∧
    PW_CHECK_VERSION 0 3 72 = 0 ∧
    PW_CHECK_VERSION 0 2 0 = 1 ∧
    PW_CHECK_VERSION 0 4 0 = 0 ∧
    PW_CHECK_VERSION 1 0 0 = 0 ∧
    PW_CHECK_VERSION 0 0 0 = 1 ∧
    PW_CHECK_VERSION PW_MAJOR PW_MINOR PW_MICRO = 1 := by
  decide

/-- C3: `pw_get_headers_version()` is exactly the string "0.3.71", six
characters long, and every evaluation yields that same string. -/
theorem pw_get_headers_version_exact :
    pw_get_headers_version () = "0.3.71" ∧
    (pw_get_headers_version ()).data = ['0', '.', '3', '.', '7', '1'] ∧
    (pw_get_headers_version ()).length = 6 ∧
    (∀ u v : Unit, pw_get_headers_version u = pw_get_headers_version v) :=
  ⟨rfl, rfl, rfl, fun _ _ => rfl⟩

/-- C4: `PW_CHECK_VERSION` is downward closed in the required version: when
r' is lexicographically at most r, acceptance of r gives acceptance of r', and
rejection of r' gives rejection of r. -/
theorem PW_CHECK_VERSION_downward_closed (M N P M' N' P' : Nat)
    (h : lexLe ((M' : Int), (N' : Int), (P' : Int)) ((M : Int), (N : Int), (P : Int))) :
    (PW_CHECK_VERSION M N P = 1 → PW_CHECK_VERSION M' N' P' = 1) ∧
    (PW_CHECK_VERSION M' N' P' = 0 → PW_CHECK_VERSION M N P = 0) := by
  constructor
  · intro hr
    rw [check_eq_one_iff_lexLe] at hr ⊢
    exact lexLe_trans h hr
  · intro hr
    rw [check_eq_zero_iff_not_lexLe] at hr ⊢
    exact fun hc => hr (lexLe_trans h hc)

/-- Witness for C4 at r = (0, 3, 71), r' = (0, 2, 100) and at r = (0, 4, 0),
r' = (0, 3, 72). -/
theorem PW_CHECK_VERSION_downward_closed_witness :
    lexLe ((0 : Int), (2 : Int), (100 : Int)) (0, 3, 71) ∧
    PW_CHECK_VERSION 0 3 71 = 1 ∧ PW_CHECK_VERSION 0 2 100 = 1 ∧
    lexLe ((0 : Int), (3 : Int), (72 : Int)) (0, 4, 0) ∧
    PW_CHECK_VERSION 0 3 72 = 0 ∧ PW_CHECK_VERSION 0 4 0 = 0 :=
  ⟨by decide, by decide,
    (PW_CHECK_VERSION_downward_closed 0 3 71 0 2 100 (by decide)).1 (by decide),
    by decide, by decide,
    (PW_CHECK_VERSION_downward_closed 0 4 0 0 3 72 (by decide)).2 (by decide)⟩

/-- C5, counterexample: a linked library of version 0.3.72 is equal to the
required version (0, 3, 72), yet `PW_CHECK_VERSION(0, 3, 72)` is false, because
the macro compares against the header constants 0.3.71; so the statement "for
every library version L, the check is true whenever L >= (M, N, P)" fails. -/
theorem PW_CHECK_VERSION_ignores_library_version :
    lexGe ((0 : Int), (3 : Int), (72 : Int)) (0, 3, 72) ∧
    PW_CHECK_VERSION 0 3 72 = 0 ∧
    ¬ (∀ (L : Triple) (M N P : Nat),
        lexGe L ((M : Int), (N : Int), (P : Int)) → PW_CHECK_VERSION M N P = 1) := by
  refine ⟨by decide, by decide, fun h => ?_⟩
  have h1 := h (0, 3, 72) 0 3 72 (by decide)
  revert h1
  decide

/-- C5, amended: for every linked library version L that is not newer than the
header version (PW_MAJOR, PW_MINOR, PW_MICRO), `PW_CHECK_VERSION(M, N, P)` is
true whenever L is equal to or newer than (M, N, P); with L the header version
itself, the check is true whenever the header version is equal to or newer than
the specified one. -/
theorem PW_CHECK_VERSION_of_library_le_header (L : Triple) (M N P : Nat)
    (hL : lexLe L (PW_MAJOR, PW_MINOR, PW_MICRO))
    (h : lexGe L ((M : Int), (N : Int), (P : Int))) :
    PW_CHECK_VERSION M N P = 1 :=
  (check_eq_one_iff_lexLe M N P).2 (lexLe_trans h hL)

/-- Witness for the amended C5: a library of version 0.3.70 and the required
version (0, 3, 5). -/
theorem PW_CHECK_VERSION_of_library_le_header_witness :
    lexLe ((0 : Int), (3 : Int), (70 : Int)) (PW_MAJOR, PW_MINOR, PW_MICRO) ∧
    lexGe ((0 : Int), (3 : Int), (70 : Int)) (0, 3, 5) ∧
    PW_CHECK_VERSION 0 3 5 = 1 :=
  ⟨by decide, by decide,
    PW_CHECK_VERSION_of_library_le_header (0, 3, 70) 0 3 5 (by decide) (by decide)⟩

/-- C6: `pw_get_library_version` is idempotent within a run: it is a total
function of the library alone, a call leaves the library unchanged, two
successive calls return the same string, and in a run of any number of calls
any two calls return the same string. -/
theorem pw_get_library_version_idempotent (lib : Library) (n : Nat) :
    (pw_get_library_version lib).2 = lib ∧
    (pw_get_library_version (pw_get_library_version lib).2).1 =
      (pw_get_library_version lib).1 ∧
    (repeatedCalls n lib).1.length = n ∧
    (repeatedCalls n lib).2 = lib ∧
    (∀ s ∈ (repeatedCalls n lib).1, ∀ t ∈ (repeatedCalls n lib).1, s = t) := by
  rw [repeatedCalls_spec]
  refine ⟨rfl, rfl, by simp, rfl, ?_⟩
  intro s hs t ht
  rw [List.eq_of_mem_replicate hs, List.eq_of_mem_replicate ht]

/-- Witness for C6: three calls on a library whose string is "0.3.71". -/
theorem pw_get_library_version_idempotent_witness :
    repeatedCalls 3 ⟨"0.3.71"⟩ = (["0.3.71", "0.3.71", "0.3.71"], ⟨"0.3.71"⟩) ∧
    (∀ s ∈ (repeatedCalls 3 ⟨"0.3.71"⟩).1, ∀ t ∈ (repeatedCalls 3 ⟨"0.3.71"⟩).1, s = t) :=
  ⟨rfl, (pw_get_library_version_idempotent ⟨"0.3.71"⟩ 3).2.2.2.2⟩

/-- C7: higher positions dominate lower ones: when (M, N) is not (0, 3) the
micro argument does not influence the result; when M is not 0 neither minor nor
micro influences it; and `PW_CHECK_VERSION(0, 2, P)` is true for every micro
P. -/
theorem PW_CHECK_VERSION_dominance :
    (∀ M N P P' : Nat, ¬ (M = 0 ∧ N = 3) →
      PW_CHECK_VERSION M N P = PW_CHECK_VERSION M N P') ∧
    (∀ M N N' P P' : Nat, M ≠ 0 →
      PW_CHECK_VERSION M N P = PW_CHECK_VERSION M N' P') ∧
    (∀ P : Nat, PW_CHECK_VERSION 0 2 P = 1) := by
  refine ⟨?_, ?_, ?_⟩
  · intro M N P P' h
    have key : threeTier M N P ↔ threeTier M N P' := by
      unfold threeTier PW_MAJOR PW_MINOR PW_MICRO
      omega
    rcases check_one_or_zero M N P with h1 | h1
    · rw [h1, eq_comm, check_eq_one_iff, ← key, ← check_eq_one_iff]
      exact h1
    · rw [h1, eq_comm, check_eq_zero_iff, ← key, ← check_eq_zero_iff]
      exact h1
  · intro M N N' P P' h
    have key : threeTier M N P ↔ threeTier M N' P' := by
      unfold threeTier PW_MAJOR PW_MINOR PW_MICRO
      omega
    rcases check_one_or_zero M N P with h1 | h1
    · rw [h1, eq_comm, check_eq_one_iff, ← key, ← check_eq_one_iff]
      exact h1
    · rw [h1, eq_comm, check_eq_zero_iff, ← key, ← check_eq_zero_iff]
      exact h1
  · intro P
    rw [check_eq_one_iff]
    unfold threeTier PW_MAJOR PW_MINOR PW_MICRO
    omega

/-- Witness for C7 at (0, 2, 0) against (0, 2, 999), (0, 4, 0) against
(0, 4, 999) and (1, 0, 0) against (1, 7, 999). -/
theorem PW_CHECK_VERSION_dominance_witness :
    PW_CHECK_VERSION 0 2 0 = PW_CHECK_VERSION 0 2 999 ∧
    PW_CHECK_VERSION 0 4 0 = PW_CHECK_VERSION 0 4 999 ∧
    PW_CHECK_VERSION 1 0 0 = PW_CHECK_VERSION 1 7 999 ∧
    PW_CHECK_VERSION 0 2 999 = 1 :=
  ⟨PW_CHECK_VERSION_dominance.1 0 2 0 999 (by decide),
    PW_CHECK_VERSION_dominance.1 0 4 0 999 (by decide),
    PW_CHECK_VERSION_dominance.2.1 1 0 7 0 999 (by decide),
    PW_CHECK_VERSION_dominance.2.2 999⟩

/-- C8: a required version with a higher major (M >= 1), or with major 0 and a
higher minor (N >= 4), is rejected whatever its lower components; and
`PW_CHECK_VERSION(0, 3, P)` is true exactly when P <= 71. -/
theorem PW_CHECK_VERSION_higher_rejected :
    (∀ M N P : Nat, 1 ≤ M → PW_CHECK_VERSION M N P = 0) ∧
    (∀ N P : Nat, 4 ≤ N → PW_CHECK_VERSION 0 N P = 0) ∧
    (∀ P : Nat, PW_CHECK_VERSION 0 3 P = 1 ↔ P ≤ 71) := by
  refine ⟨?_, ?_, ?_⟩
  · intro M N P h
    rw [check_eq_zero_iff]
    unfold threeTier PW_MAJOR PW_MINOR PW_MICRO
    omega
  · intro N P h
    rw [check_eq_zero_iff]
    unfold threeTier PW_MAJOR PW_MINOR PW_MICRO
    omega
  · intro P
    rw [check_eq_one_iff]
    unfold threeTier PW_MAJOR PW_MINOR PW_MICRO
    omega

/-- Witness for C8 at (1, 0, 0), (0, 4, 0) and (0, 3, 71). -/
theorem PW_CHECK_VERSION_higher_rejected_witness :
    PW_CHECK_VERSION 1 0 0 = 0 ∧ PW_CHECK_VERSION 0 4 0 = 0 ∧
    PW_CHECK_VERSION 0 3 71 = 1 :=
  ⟨PW_CHECK_VERSION_higher_rejected.1 1 0 0 (by decide),
    PW_CHECK_VERSION_higher_rejected.2.1 4 0 (by decide),
    (PW_CHECK_VERSION_higher_rejected.2.2 71).2 (by decide)⟩

/-- C9: the comparison is neither the numeric-sum test nor the byte-wise string
test: `PW_CHECK_VERSION(0, 2, 100)` is true although 102 > 74,
`PW_CHECK_VERSION(1, 0, 0)` is false although 1 <= 74, and
`PW_CHECK_VERSION(0, 3, 8)` is true although "0.3.8" sorts after "0.3.71". -/
theorem PW_CHECK_VERSION_not_sum_not_string :
    (PW_CHECK_VERSION 0 2 100 = 1 ∧ (0 : Int) + 2 + 100 = 102 ∧
      PW_MAJOR + PW_MINOR + PW_MICRO = 74 ∧ sumTest 0 2 100 = false) ∧
    (PW_CHECK_VERSION 1 0 0 = 0 ∧ sumTest 1 0 0 = true) ∧
    (PW_CHECK_VERSION 0 3 8 = 1 ∧ dotted3 0 3 8 = "0.3.8" ∧
      bytesLt (strBytes "0.3.71") (strBytes "0.3.8") = true ∧
      stringTest 0 3 8 = false) ∧
    (∃ M N P : Nat, ¬ (PW_CHECK_VERSION M N P = 1 ↔ sumTest M N P = true)) ∧
    (∃ M N P : Nat, ¬ (PW_CHECK_VERSION M N P = 1 ↔ stringTest M N P = true)) := by
  refine ⟨by decide, by decide, by decide, ⟨0, 2, 100, ?_⟩, ⟨0, 3, 8, ?_⟩⟩
  · intro h
    have h1 : PW_CHECK_VERSION ((0 : Nat) : Int) ((2 : Nat) : Int) ((100 : Nat) : Int) = 1 := by
      decide
    have h2 : sumTest ((0 : Nat) : Int) ((2 : Nat) : Int) ((100 : Nat) : Int) = true :=
      h.1 h1
    revert h2
    decide
  · intro h
    have h1 : PW_CHECK_VERSION ((0 : Nat) : Int) ((3 : Nat) : Int) ((8 : Nat) : Int) = 1 := by
      decide
    have h2 : stringTest ((0 : Nat) : Int) ((3 : Nat) : Int) ((8 : Nat) : Int) = true :=
      h.1 h1
    revert h2
    decide

/-- C10: the version constants are mutually consistent: the headers-version
string is the decimal renderings of PW_MAJOR, PW_MINOR, PW_MICRO joined by '.',
PW_API_VERSION is the decimal renderings of PW_MAJOR and PW_MINOR joined by
'.', and PW_API_VERSION followed by '.' starts the headers-version string. -/
theorem version_constants_consistent :
    pw_get_headers_version () = dotted3 PW_MAJOR PW_MINOR PW_MICRO ∧
    PW_API_VERSION = dotted2 PW_MAJOR PW_MINOR ∧
    pw_get_headers_version () = PW_API_VERSION ++ "." ++ decimal PW_MICRO ∧
    (PW_API_VERSION ++ ".").data <+: (pw_get_headers_version ()).data := by
  refine ⟨by decide, by decide, by decide, by decide⟩

/-- C11: `PW_CHECK_VERSION` is defined on all signed integer arguments and
agrees with lexicographic order over the integers: for all integers M, N, P the
result is 1 or 0, it is true (1) iff (M, N, P) is lexicographically at most
(0, 3, 71) and false (0) otherwise; hence any negative major yields true for
every minor and micro, major 0 with a negative minor yields true for every
micro, and (0, 3, P) yields true for every negative P. -/
theorem PW_CHECK_VERSION_signed :
    (∀ M N P : Int, PW_CHECK_VERSION M N P = 1 ∨ PW_CHECK_VERSION M N P = 0) ∧
    (∀ M N P : Int, PW_CHECK_VERSION M N P = 1 ↔ lexLe (M, N, P) (0, 3, 71)) ∧
    (∀ M N P : Int, PW_CHECK_VERSION M N P = 0 ↔ ¬ lexLe (M, N, P) (0, 3, 71)) ∧
    (∀ M N P : Int, M < 0 → PW_CHECK_VERSION M N P = 1) ∧
    (∀ N P : Int, N < 0 → PW_CHECK_VERSION 0 N P = 1) ∧
    (∀ P : Int, P < 0 → PW_CHECK_VERSION 0 3 P = 1) := by
  refine ⟨check_one_or_zero, check_eq_one_iff_lexLe, check_eq_zero_iff_not_lexLe, ?_, ?_, ?_⟩
  · intro M N P h
    rw [check_eq_one_iff]
    unfold threeTier PW_MAJOR
    omega
  · intro N P h
    rw [check_eq_one_iff]
    unfold threeTier PW_MAJOR PW_MINOR
    omega
  · intro P h
    rw [check_eq_one_iff]
    unfold threeTier PW_MAJOR PW_MINOR PW_MICRO
    omega

/-- Witness for C11 at (-1, 9, 999), (0, -1, 999), (0, 3, -1) and at the
rejected triple (0, 4, -5). -/
theorem PW_CHECK_VERSION_signed_witness :
    PW_CHECK_VERSION (-1) 9 999 = 1 ∧
    PW_CHECK_VERSION 0 (-1) 999 = 1 ∧
    PW_CHECK_VERSION 0 3 (-1) = 1 ∧
    PW_CHECK_VERSION 0 4 (-5) = 0 :=
  ⟨PW_CHECK_VERSION_signed.2.2.2.1 (-1) 9 999 (by decide),
    PW_CHECK_VERSION_signed.2.2.2.2.1 (-1) 999 (by decide),
    PW_CHECK_VERSION_signed.2.2.2.2.2 (-1) (by decide),
    (PW_CHECK_VERSION_signed.2.2.1 0 4 (-5)).2 (by decide)⟩

end PipeWire
